import Mathlib

/-!
# A verification development for `crd-controller-sample`

A shallow embedding of `controller.go` and `pkg/apis/mysamplecontroller/v1/types.go`.

The controller talks to collaborators that live outside the repository (the lister, the
typed clientset, the event recorder, the work queue, the logging helpers).  Each call to a
collaborator is recorded in a trace, answered from the current state of the outside world,
and lets the outside world move on.  A Go panic is an explicit outcome, and `defer` is a
combinator that runs the deferred call on both outcomes.
-/

namespace CrdController

/-! ## Resource types (`pkg/apis/mysamplecontroller/v1/types.go`) -/

/-- The fields of `metav1.TypeMeta`. -/
structure TypeMeta where
  Kind : String
  APIVersion : String
deriving DecidableEq, Repr

/-- The identity and bookkeeping fields of `metav1.ObjectMeta`. -/
structure ObjectMeta where
  Name : String
  Namespace : String
  UID : String
  ResourceVersion : String
  Generation : Int
  Labels : List (String × String)
  Annotations : List (String × String)
deriving DecidableEq, Repr

/-- The Go struct `SampleResourceSpec`. -/
structure SampleResourceSpec where
  Name : String
deriving DecidableEq, Repr

/-- The Go struct `SampleResourceStatus`. -/
structure SampleResourceStatus where
  Name : String
deriving DecidableEq, Repr

/-- The Go struct `SampleResource`: both metadata structs are embedded, so their fields are
fields of the resource (`sr.Namespace`). -/
structure SampleResource extends TypeMeta, ObjectMeta where
  Status : SampleResourceStatus
  Spec : SampleResourceSpec
deriving DecidableEq, Repr

/-- Modelled from the spec: the generated `DeepCopy` of `SampleResource`
(`zz_generated.deepcopy.go`) is not among the sources; the spec asks to "construct a
modified copy" instead of mutating the cached view.  Values are immutable here, so the deep
copy of a value is that value. -/
def SampleResource.DeepCopy (sr : SampleResource) : SampleResource := sr

/-! ## Go values the controller handles -/

/-- A Go `error` value: its `Error()` text and, for API status errors, the status reason
(`""` for every other error). -/
structure Error where
  Message : String
  Reason : String
deriving DecidableEq, Repr

/-- The result of `fmt.Errorf`: a plain error that carries no API status. -/
def Errorf (msg : String) : Error := ⟨msg, ""⟩

/-- The library predicate `errors.IsNotFound`: the status reason is `NotFound`. -/
def IsNotFound (err : Error) : Bool := err.Reason == "NotFound"

/-- An `interface{}` taken from the work queue: a string key, or any other value (kept by
its `%#v` rendering). -/
inductive Item where
  | string (key : String)
  | other (goSyntax : String)
deriving DecidableEq, Repr

/-- An `interface{}` handed to an informer callback. -/
inductive Obj where
  | sampleResource (sr : SampleResource)
  | explicitKey (key : String)
  | noMeta (goSyntax : String)
deriving DecidableEq, Repr

/-! ## Keys (`k8s.io/client-go/tools/cache`) -/

/-- The pieces of a character list between the slashes, as `strings.Split(s, "/")`. -/
def splitSlash : List Char → List (List Char)
  | [] => [[]]
  | ch :: rest =>
    if ch = '/' then [] :: splitSlash rest
    else
      match splitSlash rest with
      | [] => [[ch]]
      | part :: parts => (ch :: part) :: parts

/-- Modelled from the spec: `cache.SplitMetaNamespaceKey` belongs to the client-go library
and is not among the sources.  The spec gives the key as `namespace/name`, or `name` if the
namespace is empty, and the split is its inverse: one piece is a bare name, two pieces are
namespace and name, anything else is malformed. -/
def SplitMetaNamespaceKey (key : String) : Except Error (String × String) :=
  match splitSlash key.data with
  | [name] => .ok ("", String.mk name)
  | [ns, name] => .ok (String.mk ns, String.mk name)
  | _ => .error (Errorf ("unexpected key format: " ++ key))

/-- Modelled from the spec: `cache.MetaNamespaceKeyFunc` belongs to the client-go library
and is not among the sources.  The spec gives the key as `namespace/name`, or `name` if the
namespace is empty; an object without metadata has no key. -/
def MetaNamespaceKeyFunc (obj : Obj) : Except Error String :=
  match obj with
  | .explicitKey key => .ok key
  | .noMeta _ => .error (Errorf "object has no meta")
  | .sampleResource sr =>
    if sr.Namespace.length > 0 then .ok (sr.Namespace ++ "/" ++ sr.Name)
    else .ok sr.Name

/-! ## Calls to collaborators, and the effect type -/

/-- One call from the controller to something outside it. -/
inductive Call where
  | ListerGet (ns name : String)
  | Update (ns : String) (sr : SampleResource)
  | Event (object : SampleResource) (eventtype reason message : String)
  | HandleError (err : Error)
  | Info (args : List String)
  | Get
  | Add (item : Item)
  | AddRateLimited (item : Item)
  | Forget (item : Item)
  | Done (item : Item)
  | ShutDown
  | WaitForCacheSync
  | GoWaitUntilRunWorker
  | RecvStopCh
  | HandleCrash
deriving DecidableEq, Repr

/-- How a Go call ends: it returns a value, or it panics. -/
inductive Reply (α : Type) where
  | ret (a : α)
  | panic (v : String)
deriving DecidableEq, Repr

/-- What running a piece of the controller produces: the calls it made, in order, the state
of the outside world afterwards, and how it ended. -/
structure Res (σ α : Type) where
  trace : List Call
  world : σ
  out : Reply α

/-- A piece of the controller, run from a state of the outside world. -/
def M (σ α : Type) : Type := σ → Res σ α

/-- Return without calling anything. -/
def M.pure {σ α : Type} (a : α) : M σ α := fun s => ⟨[], s, .ret a⟩

/-- Sequencing: a panic in the first part skips the rest. -/
def M.bind {σ α β : Type} (m : M σ α) (f : α → M σ β) : M σ β := fun s =>
  match m s with
  | ⟨t, s1, .ret a⟩ =>
    match f a s1 with
    | ⟨t2, s2, o⟩ => ⟨t ++ t2, s2, o⟩
  | ⟨t, s1, .panic v⟩ => ⟨t, s1, .panic v⟩

instance {σ : Type} : Monad (M σ) where
  pure := M.pure
  bind := M.bind

/-- Go's `defer d` around `body`: `d` runs when `body` returns and when it panics, and the
outcome of `body` stands unless `d` itself panics. -/
def M.defer {σ α : Type} (d : M σ Unit) (body : M σ α) : M σ α := fun s =>
  match body s with
  | ⟨t, s1, o⟩ =>
    match d s1 with
    | ⟨t2, s2, .ret _⟩ => ⟨t ++ t2, s2, o⟩
    | ⟨t2, s2, .panic v⟩ => ⟨t ++ t2, s2, .panic v⟩

/-- The controller's collaborators: what each value-returning call answers in a given state
of the outside world, and how the outside world moves on at each call. -/
structure Controller (σ : Type) where
  sampleResourceListerGet : String → String → σ → Reply (Except Error SampleResource)
  sampleclientsetUpdate : String → SampleResource → σ → Reply (Except Error SampleResource)
  workqueueGet : σ → Item × Bool
  waitForCacheSync : σ → Bool
  react : Call → σ → σ

/-- Make one call: record it, answer it from the current world, let the world react. -/
def invoke {σ α : Type} (c : Controller σ) (k : Call) (reply : σ → Reply α) : M σ α :=
  fun s => ⟨[k], c.react k s, reply s⟩

/-- A call that returns nothing. -/
def notify {σ : Type} (c : Controller σ) (k : Call) : M σ Unit :=
  invoke c k (fun _ => .ret ())

/-! ## `controller.go` -/

def controllerAgentName : String := "alice02-sample-controller"

def SuccessSynced : String := "Synced"

def ErrResourceExists : String := "ErrResourceExists"

def MessageResourceExists : String :=
  "Resource %q alreadt exists and is not managed by SampleResource"

def MessageResourceSynced : String := "Sample synced successfully"

/-- The constant `corev1.EventTypeNormal`. -/
def EventTypeNormal : String := "Normal"

/-- `Controller.updateSampleResourceStatus`. -/
def updateSampleResourceStatus {σ : Type} (c : Controller σ) (sr : SampleResource) :
    M σ (Option Error) :=
  let srCopy := sr.DeepCopy
  let srCopy := { srCopy with Status := { srCopy.Status with Name := sr.Spec.Name } }
  do
    let r ← invoke c (.Update sr.Namespace srCopy) (c.sampleclientsetUpdate sr.Namespace srCopy)
    match r with
    | .ok _ => return none
    | .error err => return some err

/-- `Controller.syncHandler`. -/
def syncHandler {σ : Type} (c : Controller σ) (key : String) : M σ (Option Error) :=
  match SplitMetaNamespaceKey key with
  | .error _ => do
    notify c (.HandleError (Errorf ("invalid resource key: " ++ key)))
    return none
  | .ok (ns, name) => do
    let r ← invoke c (.ListerGet ns name) (c.sampleResourceListerGet ns name)
    match r with
    | .error err =>
      if IsNotFound err then do
        notify c (.HandleError
          (Errorf ("sample resource '" ++ key ++ "' in work queue no longer exists")))
        return none
      else
        return some err
    | .ok sr =>
      let srName := sr.Spec.Name
      if srName = "" then do
        notify c (.HandleError (Errorf (key ++ ": deployment name must be specified")))
        return none
      else do
        let err ← updateSampleResourceStatus c sr
        match err with
        | some e => return some e
        | none => do
          notify c (.Event sr EventTypeNormal SuccessSynced MessageResourceSynced)
          return none

/-- `Controller.processNextWorkItem`.  The deferred `Done` of the inner function runs on
every outcome of its body; nothing in the function recovers from a panic. -/
def processNextWorkItem {σ : Type} (c : Controller σ) : M σ Bool := do
  let (obj, shutdown) ← invoke c .Get (fun s => .ret (c.workqueueGet s))
  if shutdown then
    return false
  else do
    let err ← M.defer (notify c (.Done obj))
      (match obj with
        | .other goSyntax => do
          notify c (.Forget obj)
          notify c (.HandleError (Errorf ("expected string in workqueue but got " ++ goSyntax)))
          return none
        | .string key => do
          let err ← syncHandler c key
          match err with
          | some e => do
            notify c (.AddRateLimited (.string key))
            return some (Errorf ("error syncing '" ++ key ++ "': " ++ e.Message ++ ", requeuing"))
          | none => do
            notify c (.Forget obj)
            notify c (.Info ["Successfully synced '%s'", key])
            return none)
    match err with
    | some e => do
      notify c (.HandleError e)
      return true
    | none => return true

/-- `Controller.runWorker`: `for c.processNextWorkItem() {}`, run for at most `fuel` rounds.
The result is `some ()` when the loop has ended and `none` when the rounds are used up with
the loop still going. -/
def runWorker {σ : Type} (c : Controller σ) : Nat → M σ (Option Unit)
  | 0 => return none
  | fuel + 1 => do
    let more ← processNextWorkItem c
    if more then runWorker c fuel else return some ()

/-- `Controller.enqueueSampleResource`. -/
def enqueueSampleResource {σ : Type} (c : Controller σ) (obj : Obj) : M σ Unit :=
  match MetaNamespaceKeyFunc obj with
  | .error err => notify c (.HandleError err)
  | .ok key => notify c (.AddRateLimited (.string key))

/-- The `AddFunc` that `NewController` registers with the informer. -/
def AddFunc {σ : Type} (c : Controller σ) (obj : Obj) : M σ Unit :=
  enqueueSampleResource c obj

/-- The `UpdateFunc` that `NewController` registers with the informer. -/
def UpdateFunc {σ : Type} (c : Controller σ) (_old new : Obj) : M σ Unit :=
  enqueueSampleResource c new

/-- The worker-launching loop of `Run`, `for i := 0; i < threadiness; i++`, from counter `i`;
the first argument bounds the rounds, and `Run` passes `threadiness.toNat`, the number of
values the counter can take below `threadiness`. -/
def startWorkers {σ : Type} (c : Controller σ) (threadiness : Int) : Nat → Int → M σ Unit
  | 0, _ => return ()
  | fuel + 1, i =>
    if i < threadiness then do
      notify c .GoWaitUntilRunWorker
      startWorkers c threadiness fuel (i + 1)
    else
      return ()

/-- `Controller.Run`.  The two deferred calls run last, `ShutDown` before `HandleCrash`. -/
def Run {σ : Type} (c : Controller σ) (threadiness : Int) : M σ (Option Error) :=
  M.defer (notify c .HandleCrash)
    (M.defer (notify c .ShutDown)
      (do
        notify c (.Info ["Starting SampleResource Controller"])
        notify c (.Info ["Waiting for informer caches to sync"])
        let ok ← invoke c .WaitForCacheSync (fun s => .ret (c.waitForCacheSync s))
        if !ok then
          return some (Errorf "failed to wait for caches to sync")
        else do
          notify c (.Info ["Starting workers"])
          startWorkers c threadiness threadiness.toNat 0
          notify c (.Info ["Started workers"])
          notify c .RecvStopCh
          notify c (.Info ["Shutting down workers"])
          return none))

/-! ## Reading a trace -/

/-- The `Update` calls of a trace: namespace and object written. -/
def updatesOf (t : List Call) : List (String × SampleResource) :=
  t.filterMap fun k => match k with
    | .Update ns sr => some (ns, sr)
    | _ => none

/-- The events of a trace: object, type, reason, message. -/
def eventsOf (t : List Call) : List (SampleResource × String × String × String) :=
  t.filterMap fun k => match k with
    | .Event o ty r m => some (o, ty, r, m)
    | _ => none

/-- The cache lookups of a trace. -/
def lookupsOf (t : List Call) : List (String × String) :=
  t.filterMap fun k => match k with
    | .ListerGet ns name => some (ns, name)
    | _ => none

/-- Whether a call is a call to the work queue. -/
def Call.isQueueOp : Call → Bool
  | .Get => true
  | .Add _ => true
  | .AddRateLimited _ => true
  | .Forget _ => true
  | .Done _ => true
  | .ShutDown => true
  | _ => false

/-- The work-queue calls of a trace. -/
def queueOps (t : List Call) : List Call := t.filter Call.isQueueOp

/-! ## A small concrete outside world, for evaluating the controller -/

/-- A state of the outside world: the objects the lister sees, the items waiting in the work
queue, and switches for the failures a collaborator can show. -/
structure World where
  cache : List SampleResource
  queue : List Item
  shuttingDown : Bool
  synced : Bool
  conflict : Bool
  listerBroken : Bool
  listerCrashes : Bool
deriving DecidableEq, Repr

/-- Collaborators over `World`: the lister looks the object up by namespace and name, the
store accepts a write unless it reports a conflict, `Get` hands out the head of the queue. -/
def demo : Controller World where
  sampleResourceListerGet := fun ns name w =>
    if w.listerCrashes then .panic "invalid memory address or nil pointer dereference"
    else if w.listerBroken then .ret (.error ⟨"cache unavailable", "ServiceUnavailable"⟩)
    else
      match w.cache.find? (fun o => o.Namespace == ns && o.Name == name) with
      | some sr => .ret (.ok sr)
      | none => .ret (.error ⟨"sampleresource not found", "NotFound"⟩)
  sampleclientsetUpdate := fun _ sr w =>
    if w.conflict then .ret (.error ⟨"the object has been modified", "Conflict"⟩)
    else .ret (.ok sr)
  workqueueGet := fun w =>
    match w.queue with
    | [] => (.other "nil", true)
    | item :: _ => (item, w.shuttingDown)
  waitForCacheSync := fun w => w.synced
  react := fun k w =>
    match k with
    | .Get => { w with queue := w.queue.tail }
    | .Update _ sr =>
      { w with cache := w.cache.map fun o =>
          if o.Namespace == sr.Namespace && o.Name == sr.Name then sr else o }
    | _ => w

/-- The object of the spec's scenario: namespace `ns1`, name `foo`, spec name `bar`. -/
def foo : SampleResource where
  Kind := "SampleResource"
  APIVersion := "example.com/v1"
  Name := "foo"
  Namespace := "ns1"
  UID := "u-1"
  ResourceVersion := "1"
  Generation := 1
  Labels := []
  Annotations := []
  Status := { Name := "" }
  Spec := { Name := "bar" }

/-- An object whose spec name is empty. -/
def blank : SampleResource := { foo with Name := "blank", Spec := { Name := "" } }

/-- A world in which the cache holds `foo` and `blank`, is synced, and nothing fails. -/
def calm : World where
  cache := [foo, blank]
  queue := []
  shuttingDown := false
  synced := true
  conflict := false
  listerBroken := false
  listerCrashes := false

/-- A world like `calm` in which every store write reports a conflict. -/
def contended : World := { calm with conflict := true }

/-- A world like `calm` in which `foo` already carries the status the controller writes. -/
def settled : World :=
  { calm with cache := [{ foo with Status := { Name := "bar" } }, blank] }

/-- A world like `calm` with `ns1/foo` waiting in the work queue. -/
def busy : World := { calm with queue := [.string "ns1/foo"] }

/-- A world like `busy` in which every store write reports a conflict. -/
def busyContended : World := { busy with conflict := true }

/-- A world like `busy` in which the lister panics. -/
def busyCrashing : World := { busy with listerCrashes := true }

/-- A world like `busy` whose queue has been shut down. -/
def closing : World := { busy with shuttingDown := true }

/-- A world like `calm` whose cache never syncs. -/
def cold : World := { calm with synced := false }

/-! ## The sync function -/

/-- The sync function never calls the work queue. -/
theorem syncHandler_queueOps {σ : Type} (c : Controller σ) (key : String) (s : σ) :
    queueOps (syncHandler c key s).trace = [] := by
  unfold syncHandler
  cases hsplit : SplitMetaNamespaceKey key with
  | error e => simp [bind, pure, M.bind, M.pure, invoke, notify, queueOps, Call.isQueueOp]
  | ok p =>
    obtain ⟨ns, name⟩ := p
    cases hget : c.sampleResourceListerGet ns name s with
    | panic v => simp [bind, M.bind, invoke, hget, queueOps, Call.isQueueOp]
    | ret r =>
      cases r with
      | error err =>
        by_cases hnf : IsNotFound err = true <;>
          simp [bind, pure, M.bind, M.pure, invoke, notify, hget, hnf, queueOps, Call.isQueueOp]
      | ok sr =>
        by_cases hname : sr.Spec.Name = ""
        · simp [bind, pure, M.bind, M.pure, invoke, notify, hget, hname, queueOps,
            Call.isQueueOp]
        · cases hupd : c.sampleclientsetUpdate sr.Namespace
              { sr with Status := { Name := sr.Spec.Name } } (c.react (.ListerGet ns name) s) with
          | panic v =>
            simp [bind, pure, M.bind, M.pure, invoke, notify, hget, hname, hupd, queueOps,
              Call.isQueueOp, updateSampleResourceStatus, SampleResource.DeepCopy]
          | ret r2 =>
            cases r2 <;>
            simp [bind, pure, M.bind, M.pure, invoke, notify, hget, hname, hupd, queueOps,
              Call.isQueueOp, updateSampleResourceStatus, SampleResource.DeepCopy]

/-- The run of `syncHandler` on a found object with a non-empty spec name whose write the
store accepts: lookup, write, event, nil. -/
theorem syncHandler_accepted {σ : Type} (c : Controller σ) (key ns name : String) (s : σ)
    (sr w : SampleResource)
    (hsplit : SplitMetaNamespaceKey key = .ok (ns, name))
    (hget : c.sampleResourceListerGet ns name s = .ret (.ok sr))
    (hname : sr.Spec.Name ≠ "")
    (hupd : c.sampleclientsetUpdate sr.Namespace { sr with Status := { Name := sr.Spec.Name } }
      (c.react (.ListerGet ns name) s) = .ret (.ok w)) :
    (syncHandler c key s).trace =
        [.ListerGet ns name,
         .Update sr.Namespace { sr with Status := { Name := sr.Spec.Name } },
         .Event sr "Normal" "Synced" "Sample synced successfully"]
      ∧ (syncHandler c key s).out = .ret none := by
  simp [syncHandler, hsplit, bind, pure, M.bind, M.pure, invoke, notify, hget, hname,
    updateSampleResourceStatus, SampleResource.DeepCopy, hupd, EventTypeNormal, SuccessSynced,
    MessageResourceSynced]

/-- A run of `syncHandler` that returns an error has recorded no event. -/
theorem syncHandler_error_silent {σ : Type} (c : Controller σ) (key : String) (s : σ)
    (e : Error) (h : (syncHandler c key s).out = .ret (some e)) :
    eventsOf (syncHandler c key s).trace = [] := by
  revert h
  unfold syncHandler
  cases hsplit : SplitMetaNamespaceKey key with
  | error e0 => simp [bind, pure, M.bind, M.pure, invoke, notify, eventsOf]
  | ok p =>
    obtain ⟨ns, name⟩ := p
    cases hget : c.sampleResourceListerGet ns name s with
    | panic v => simp [bind, M.bind, invoke, hget, eventsOf]
    | ret r =>
      cases r with
      | error err =>
        by_cases hnf : IsNotFound err = true <;>
          simp [bind, pure, M.bind, M.pure, invoke, notify, hget, hnf, eventsOf]
      | ok sr =>
        by_cases hname : sr.Spec.Name = ""
        · simp [bind, pure, M.bind, M.pure, invoke, notify, hget, hname, eventsOf]
        · cases hupd : c.sampleclientsetUpdate sr.Namespace
              { sr with Status := { Name := sr.Spec.Name } } (c.react (.ListerGet ns name) s) with
          | panic v =>
            simp [bind, pure, M.bind, M.pure, invoke, notify, hget, hname, hupd, eventsOf,
              updateSampleResourceStatus, SampleResource.DeepCopy]
          | ret r2 =>
            cases r2 <;>
            simp [bind, pure, M.bind, M.pure, invoke, notify, hget, hname, hupd, eventsOf,
              updateSampleResourceStatus, SampleResource.DeepCopy]

/-- C1: when the key splits, the object is found with a non-empty spec name and the store
accepts the write, `syncHandler` makes exactly one `Update` call, whose argument is the
cached object with only `Status.Name` replaced by `Spec.Name`, then emits exactly one event,
with reason `Synced`, and returns nil. -/
theorem syncHandler_synced {σ : Type} (c : Controller σ) (key ns name : String) (s : σ)
    (sr w : SampleResource)
    (hsplit : SplitMetaNamespaceKey key = .ok (ns, name))
    (hget : c.sampleResourceListerGet ns name s = .ret (.ok sr))
    (hname : sr.Spec.Name ≠ "")
    (hupd : c.sampleclientsetUpdate sr.Namespace { sr with Status := { Name := sr.Spec.Name } }
      (c.react (.ListerGet ns name) s) = .ret (.ok w)) :
    (syncHandler c key s).trace =
        [.ListerGet ns name,
         .Update sr.Namespace { sr with Status := { Name := sr.Spec.Name } },
         .Event sr "Normal" "Synced" "Sample synced successfully"]
      ∧ updatesOf (syncHandler c key s).trace =
        [(sr.Namespace, { sr with Status := { Name := sr.Spec.Name } })]
      ∧ (∀ p ∈ updatesOf (syncHandler c key s).trace,
          p.2.Status.Name = sr.Spec.Name ∧ p.2.Spec = sr.Spec
            ∧ p.2.toObjectMeta = sr.toObjectMeta ∧ p.2.toTypeMeta = sr.toTypeMeta)
      ∧ eventsOf (syncHandler c key s).trace =
        [(sr, "Normal", "Synced", "Sample synced successfully")]
      ∧ (syncHandler c key s).out = .ret none := by
  simp [syncHandler, hsplit, bind, pure, M.bind, M.pure, invoke, notify, hget, hname,
    updateSampleResourceStatus, SampleResource.DeepCopy, hupd, EventTypeNormal, SuccessSynced,
    MessageResourceSynced, updatesOf, eventsOf]

/-- Witness of C1: the spec's scenario, key `ns1/foo` with spec name `bar`. -/
theorem syncHandler_synced_witness :
    (syncHandler demo "ns1/foo" calm).trace =
        [.ListerGet "ns1" "foo",
         .Update "ns1" { foo with Status := { Name := "bar" } },
         .Event foo "Normal" "Synced" "Sample synced successfully"]
      ∧ updatesOf (syncHandler demo "ns1/foo" calm).trace =
        [("ns1", { foo with Status := { Name := "bar" } })]
      ∧ (∀ p ∈ updatesOf (syncHandler demo "ns1/foo" calm).trace,
          p.2.Status.Name = foo.Spec.Name ∧ p.2.Spec = foo.Spec
            ∧ p.2.toObjectMeta = foo.toObjectMeta ∧ p.2.toTypeMeta = foo.toTypeMeta)
      ∧ eventsOf (syncHandler demo "ns1/foo" calm).trace =
        [(foo, "Normal", "Synced", "Sample synced successfully")]
      ∧ (syncHandler demo "ns1/foo" calm).out = .ret none :=
  syncHandler_synced demo "ns1/foo" "ns1" "foo" calm foo { foo with Status := { Name := "bar" } }
    (by rfl) (by rfl) (by decide) (by rfl)

/-- C2: `syncHandler` returns a non-nil error exactly when the cache lookup fails with an
error other than not-found, or the object is found with a non-empty spec name and the store
`Update` fails; the error returned is the collaborator's own, and no event is emitted. -/
theorem syncHandler_error_iff {σ : Type} (c : Controller σ) (key : String) (s : σ)
    (e : Error) :
    ((syncHandler c key s).out = .ret (some e) ↔
      ∃ ns name, SplitMetaNamespaceKey key = .ok (ns, name) ∧
        ((c.sampleResourceListerGet ns name s = .ret (.error e) ∧ IsNotFound e = false) ∨
          ∃ sr, c.sampleResourceListerGet ns name s = .ret (.ok sr) ∧ sr.Spec.Name ≠ "" ∧
            c.sampleclientsetUpdate sr.Namespace { sr with Status := { Name := sr.Spec.Name } }
              (c.react (.ListerGet ns name) s) = .ret (.error e)))
      ∧ ((syncHandler c key s).out = .ret (some e) →
          eventsOf (syncHandler c key s).trace = []) := by
  unfold syncHandler
  cases hsplit : SplitMetaNamespaceKey key with
  | error e0 => simp [bind, pure, M.bind, M.pure, invoke, notify, eventsOf]
  | ok p =>
    obtain ⟨ns, name⟩ := p
    cases hget : c.sampleResourceListerGet ns name s with
    | panic v => simp [bind, M.bind, invoke, hget, eventsOf]
    | ret r =>
      cases r with
      | error err =>
        by_cases hnf : IsNotFound err = true
        · simp [bind, pure, M.bind, M.pure, invoke, notify, hget, hnf, eventsOf, and_assoc]
          intro h1
          rw [← h1]
          exact hnf
        · simp [bind, pure, M.bind, M.pure, invoke, notify, hget, hnf, eventsOf, and_assoc]
          intro h1
          rw [← h1]
          simpa using hnf
      | ok sr =>
        by_cases hname : sr.Spec.Name = ""
        · simp [bind, pure, M.bind, M.pure, invoke, notify, hget, hname, eventsOf]
        · cases hupd : c.sampleclientsetUpdate sr.Namespace
              { sr with Status := { Name := sr.Spec.Name } } (c.react (.ListerGet ns name) s) with
          | panic v =>
            simp [bind, pure, M.bind, M.pure, invoke, notify, hget, hname, hupd, eventsOf,
              updateSampleResourceStatus, SampleResource.DeepCopy]
          | ret r2 =>
            cases r2 <;>
            simp [bind, pure, M.bind, M.pure, invoke, notify, hget, hname, hupd, eventsOf,
              updateSampleResourceStatus, SampleResource.DeepCopy, and_assoc]

/-- Witness of C2: a write conflict on `ns1/foo` comes back as the error of `syncHandler`. -/
theorem syncHandler_error_iff_witness :
    (syncHandler demo "ns1/foo" contended).out
        = .ret (some ⟨"the object has been modified", "Conflict"⟩)
      ∧ eventsOf (syncHandler demo "ns1/foo" contended).trace = [] :=
  have h := (syncHandler_error_iff demo "ns1/foo" contended
      ⟨"the object has been modified", "Conflict"⟩).1.2
    ⟨"ns1", "foo", by rfl, Or.inr ⟨foo, by rfl, by decide, by rfl⟩⟩
  ⟨h, (syncHandler_error_iff demo "ns1/foo" contended _).2 h⟩

/-- C3: for a well-formed key whose cache lookup reports not-found, `syncHandler` returns
nil, makes no `Update` call and emits no event. -/
theorem syncHandler_notFound {σ : Type} (c : Controller σ) (key ns name : String) (s : σ)
    (err : Error)
    (hsplit : SplitMetaNamespaceKey key = .ok (ns, name))
    (hget : c.sampleResourceListerGet ns name s = .ret (.error err))
    (hnf : IsNotFound err = true) :
    (syncHandler c key s).out = .ret none
      ∧ updatesOf (syncHandler c key s).trace = []
      ∧ eventsOf (syncHandler c key s).trace = []
      ∧ (syncHandler c key s).trace =
        [.ListerGet ns name,
         .HandleError (Errorf ("sample resource '" ++ key ++ "' in work queue no longer exists"))] := by
  simp [syncHandler, hsplit, bind, pure, M.bind, M.pure, invoke, notify, hget, hnf, updatesOf,
    eventsOf]

/-- Witness of C3: the spec's scenario, key `ns1/missing` with no such object in the cache. -/
theorem syncHandler_notFound_witness :
    (syncHandler demo "ns1/missing" calm).out = .ret none
      ∧ updatesOf (syncHandler demo "ns1/missing" calm).trace = []
      ∧ eventsOf (syncHandler demo "ns1/missing" calm).trace = []
      ∧ (syncHandler demo "ns1/missing" calm).trace =
        [.ListerGet "ns1" "missing",
         .HandleError
          (Errorf ("sample resource '" ++ "ns1/missing" ++ "' in work queue no longer exists"))] :=
  syncHandler_notFound demo "ns1/missing" "ns1" "missing" calm
    ⟨"sampleresource not found", "NotFound"⟩ (by rfl) (by rfl) (by rfl)

/-- C9: for a key that does not split, and for a found object whose spec name is empty,
`syncHandler` returns nil and makes no `Update` call; for a key that does not split it makes
no cache lookup either. -/
theorem syncHandler_terminal {σ : Type} (c : Controller σ) (key : String) (s : σ) :
    (∀ e0, SplitMetaNamespaceKey key = .error e0 →
        (syncHandler c key s).out = .ret none
          ∧ updatesOf (syncHandler c key s).trace = []
          ∧ lookupsOf (syncHandler c key s).trace = []
          ∧ (syncHandler c key s).trace =
            [.HandleError (Errorf ("invalid resource key: " ++ key))])
      ∧ (∀ ns name sr, SplitMetaNamespaceKey key = .ok (ns, name) →
          c.sampleResourceListerGet ns name s = .ret (.ok sr) → sr.Spec.Name = "" →
          (syncHandler c key s).out = .ret none
            ∧ updatesOf (syncHandler c key s).trace = []
            ∧ (syncHandler c key s).trace =
              [.ListerGet ns name,
               .HandleError (Errorf (key ++ ": deployment name must be specified"))]) := by
  constructor
  · intro e0 hsplit
    simp [syncHandler, hsplit, bind, pure, M.bind, M.pure, invoke, notify, updatesOf, lookupsOf]
  · intro ns name sr hsplit hget hname
    simp [syncHandler, hsplit, bind, pure, M.bind, M.pure, invoke, notify, hget, hname,
      updatesOf]

/-- Witness of C9: the key `a/b/c` does not split, and `ns1/blank` has an empty spec name. -/
theorem syncHandler_terminal_witness :
    ((syncHandler demo "a/b/c" calm).out = .ret none
        ∧ updatesOf (syncHandler demo "a/b/c" calm).trace = []
        ∧ lookupsOf (syncHandler demo "a/b/c" calm).trace = []
        ∧ (syncHandler demo "a/b/c" calm).trace =
          [.HandleError (Errorf ("invalid resource key: " ++ "a/b/c"))])
      ∧ ((syncHandler demo "ns1/blank" calm).out = .ret none
        ∧ updatesOf (syncHandler demo "ns1/blank" calm).trace = []
        ∧ (syncHandler demo "ns1/blank" calm).trace =
          [.ListerGet "ns1" "blank",
           .HandleError (Errorf ("ns1/blank" ++ ": deployment name must be specified"))]) :=
  ⟨(syncHandler_terminal demo "a/b/c" calm).1 (Errorf "unexpected key format: a/b/c") (by rfl),
   (syncHandler_terminal demo "ns1/blank" calm).2 "ns1" "blank" blank (by rfl) (by rfl)
     (by rfl)⟩


/-- C10, counterexample: `ns1/blank` is found with an empty spec name, the sync ends in this
terminal failure and returns nil, and no event is recorded. -/
theorem syncHandler_terminal_no_event :
    demo.sampleResourceListerGet "ns1" "blank" calm = .ret (.ok blank)
      ∧ blank.Spec.Name = ""
      ∧ (syncHandler demo "ns1/blank" calm).out = .ret none
      ∧ eventsOf (syncHandler demo "ns1/blank" calm).trace = [] := by
  refine ⟨by rfl, by rfl, by rfl, by rfl⟩

/-- C10, amended: `syncHandler` records an event exactly when the sync ends in an accepted
store write, and then it is one `Synced` event against the object; a sync that ends in a
terminal failure (the object found with an empty spec name) records no event and only hands
an error to the error handler, and a sync that ends in an error records no event. -/
theorem syncHandler_events {σ : Type} (c : Controller σ) (key : String) (s : σ) :
    (eventsOf (syncHandler c key s).trace ≠ [] ↔
        ∃ ns name sr w, SplitMetaNamespaceKey key = .ok (ns, name)
          ∧ c.sampleResourceListerGet ns name s = .ret (.ok sr) ∧ sr.Spec.Name ≠ ""
          ∧ c.sampleclientsetUpdate sr.Namespace { sr with Status := { Name := sr.Spec.Name } }
              (c.react (.ListerGet ns name) s) = .ret (.ok w))
      ∧ (∀ ns name sr w, SplitMetaNamespaceKey key = .ok (ns, name) →
          c.sampleResourceListerGet ns name s = .ret (.ok sr) → sr.Spec.Name ≠ "" →
          c.sampleclientsetUpdate sr.Namespace { sr with Status := { Name := sr.Spec.Name } }
              (c.react (.ListerGet ns name) s) = .ret (.ok w) →
          eventsOf (syncHandler c key s).trace =
            [(sr, "Normal", "Synced", "Sample synced successfully")])
      ∧ (∀ ns name sr, SplitMetaNamespaceKey key = .ok (ns, name) →
          c.sampleResourceListerGet ns name s = .ret (.ok sr) → sr.Spec.Name = "" →
          eventsOf (syncHandler c key s).trace = []
            ∧ (syncHandler c key s).trace =
              [.ListerGet ns name,
               .HandleError (Errorf (key ++ ": deployment name must be specified"))])
      ∧ (∀ e, (syncHandler c key s).out = .ret (some e) →
          eventsOf (syncHandler c key s).trace = []) := by
  refine ⟨?_, ?_, ?_, ?_⟩
  · unfold syncHandler
    cases hsplit : SplitMetaNamespaceKey key with
    | error e0 => simp [bind, pure, M.bind, M.pure, invoke, notify, eventsOf]
    | ok p =>
      obtain ⟨ns, name⟩ := p
      cases hget : c.sampleResourceListerGet ns name s with
      | panic v => simp [bind, M.bind, invoke, hget, eventsOf]
      | ret r =>
        cases r with
        | error err =>
          by_cases hnf : IsNotFound err = true <;>
            simp [bind, pure, M.bind, M.pure, invoke, notify, hget, hnf, eventsOf]
        | ok sr =>
          by_cases hname : sr.Spec.Name = ""
          · simp [bind, pure, M.bind, M.pure, invoke, notify, hget, hname, eventsOf]
          · cases hupd : c.sampleclientsetUpdate sr.Namespace
                { sr with Status := { Name := sr.Spec.Name } }
                (c.react (.ListerGet ns name) s) with
            | panic v =>
              simp [bind, pure, M.bind, M.pure, invoke, notify, hget, hname, hupd, eventsOf,
                updateSampleResourceStatus, SampleResource.DeepCopy]
            | ret r2 =>
              cases r2 <;>
              simp [bind, pure, M.bind, M.pure, invoke, notify, hget, hname, hupd, eventsOf,
                updateSampleResourceStatus, SampleResource.DeepCopy, and_assoc]
  · intro ns name sr w hsplit hget hname hupd
    simp [syncHandler, hsplit, bind, pure, M.bind, M.pure, invoke, notify, hget, hname,
      updateSampleResourceStatus, SampleResource.DeepCopy, hupd, EventTypeNormal, SuccessSynced,
      MessageResourceSynced, eventsOf]
  · intro ns name sr hsplit hget hname
    simp [syncHandler, hsplit, bind, pure, M.bind, M.pure, invoke, notify, hget, hname,
      eventsOf]
  · intro e h
    exact syncHandler_error_silent c key s e h

/-- Witness of C10: on `ns1/foo` the accepted write records one `Synced` event, on
`ns1/blank` the empty spec name records none. -/
theorem syncHandler_events_witness :
    eventsOf (syncHandler demo "ns1/foo" calm).trace =
        [(foo, "Normal", "Synced", "Sample synced successfully")]
      ∧ eventsOf (syncHandler demo "ns1/blank" calm).trace = [] :=
  ⟨(syncHandler_events demo "ns1/foo" calm).2.1 "ns1" "foo" foo
      { foo with Status := { Name := "bar" } } (by rfl) (by rfl) (by decide) (by rfl),
   ((syncHandler_events demo "ns1/blank" calm).2.2.1 "ns1" "blank" blank (by rfl) (by rfl)
      (by rfl)).1⟩

/-- C4, counterexample: `foo` already carries the status `bar`; two syncs in a row of
`ns1/foo` both succeed and write the same object, and the second one records an event equal
to the one the first recorded. -/
theorem syncHandler_twice_duplicate_event :
    (syncHandler demo "ns1/foo" settled).out = .ret none
      ∧ (syncHandler demo "ns1/foo" (syncHandler demo "ns1/foo" settled).world).out = .ret none
      ∧ (syncHandler demo "ns1/foo" settled).world.cache = settled.cache
      ∧ eventsOf (syncHandler demo "ns1/foo" settled).trace =
        [({ foo with Status := { Name := "bar" } }, "Normal", "Synced",
          "Sample synced successfully")]
      ∧ eventsOf (syncHandler demo "ns1/foo" (syncHandler demo "ns1/foo" settled).world).trace =
        [({ foo with Status := { Name := "bar" } }, "Normal", "Synced",
          "Sample synced successfully")]
      ∧ eventsOf (syncHandler demo "ns1/foo" (syncHandler demo "ns1/foo" settled).world).trace
        ≠ [] := by
  have h2 :
      eventsOf (syncHandler demo "ns1/foo" (syncHandler demo "ns1/foo" settled).world).trace =
        [({ foo with Status := { Name := "bar" } }, "Normal", "Synced",
          "Sample synced successfully")] := by rfl
  refine ⟨by rfl, by rfl, by rfl, by rfl, h2, ?_⟩
  rw [h2]
  simp

/-- C4, amended: when `syncHandler` runs twice in a row on an object with a non-empty spec
name that is unchanged in between (the second lookup finds the object of the first lookup,
or that object as the first call wrote it) and both writes are accepted, the second call
writes the same object, so the same status, as the first, returns nil, and records one more
`Synced` event; when the second lookup finds the very object of the first, that event
equals the first one. -/
theorem syncHandler_twice {σ : Type} (c : Controller σ) (key ns name : String) (s : σ)
    (sr sr2 w w2 : SampleResource)
    (hsplit : SplitMetaNamespaceKey key = .ok (ns, name))
    (hget : c.sampleResourceListerGet ns name s = .ret (.ok sr))
    (hname : sr.Spec.Name ≠ "")
    (hupd : c.sampleclientsetUpdate sr.Namespace { sr with Status := { Name := sr.Spec.Name } }
      (c.react (.ListerGet ns name) s) = .ret (.ok w))
    (hget2 : c.sampleResourceListerGet ns name (syncHandler c key s).world = .ret (.ok sr2))
    (hsame : sr2 = sr ∨ sr2 = { sr with Status := { Name := sr.Spec.Name } })
    (hupd2 : c.sampleclientsetUpdate sr2.Namespace
      { sr2 with Status := { Name := sr2.Spec.Name } }
      (c.react (.ListerGet ns name) (syncHandler c key s).world) = .ret (.ok w2)) :
    updatesOf (syncHandler c key (syncHandler c key s).world).trace
        = updatesOf (syncHandler c key s).trace
      ∧ updatesOf (syncHandler c key (syncHandler c key s).world).trace
        = [(sr.Namespace, { sr with Status := { Name := sr.Spec.Name } })]
      ∧ (syncHandler c key (syncHandler c key s).world).out = .ret none
      ∧ eventsOf (syncHandler c key (syncHandler c key s).world).trace
        = [(sr2, "Normal", "Synced", "Sample synced successfully")]
      ∧ (sr2 = sr → eventsOf (syncHandler c key (syncHandler c key s).world).trace
          = eventsOf (syncHandler c key s).trace) := by
  have h1 := syncHandler_accepted c key ns name s sr w hsplit hget hname hupd
  have hname2 : sr2.Spec.Name ≠ "" := by
    rcases hsame with h | h <;> simp [h, hname]
  have h2 := syncHandler_accepted c key ns name (syncHandler c key s).world sr2 w2 hsplit hget2
    hname2 hupd2
  have hw : (sr2.Namespace, ({ sr2 with Status := { Name := sr2.Spec.Name } } : SampleResource))
      = (sr.Namespace, { sr with Status := { Name := sr.Spec.Name } }) := by
    rcases hsame with h | h <;> simp [h]
  have hw2 : ({ sr2 with Status := { Name := sr2.Spec.Name } } : SampleResource)
      = { sr with Status := { Name := sr.Spec.Name } } := (Prod.mk.inj hw).2
  have hns : sr2.Namespace = sr.Namespace := (Prod.mk.inj hw).1
  refine ⟨?_, ?_, h2.2, ?_, ?_⟩
  · rw [h2.1, h1.1, hw2, hns]
    simp [updatesOf]
  · rw [h2.1, hw2, hns]
    simp [updatesOf]
  · rw [h2.1]
    simp [eventsOf]
  · intro h
    rw [h2.1, h1.1, h]

/-- Witness of C4: the spec's scenario, `ns1/foo` synced twice; the second lookup finds the
object as the first call wrote it. -/
theorem syncHandler_twice_witness :
    updatesOf (syncHandler demo "ns1/foo" (syncHandler demo "ns1/foo" calm).world).trace
        = updatesOf (syncHandler demo "ns1/foo" calm).trace
      ∧ eventsOf (syncHandler demo "ns1/foo" (syncHandler demo "ns1/foo" calm).world).trace
        = [({ foo with Status := { Name := "bar" } }, "Normal", "Synced",
            "Sample synced successfully")] :=
  have h := syncHandler_twice demo "ns1/foo" "ns1" "foo" calm foo
    { foo with Status := { Name := "bar" } } { foo with Status := { Name := "bar" } }
    { foo with Status := { Name := "bar" } } (by rfl) (by rfl) (by decide) (by rfl) (by rfl)
    (Or.inr (by rfl)) (by rfl)
  ⟨h.1, h.2.2.2.1⟩


/-! ## The event adapter -/

/-- The key of a resource is `namespace/name`, or `name` when the namespace is empty. -/
theorem MetaNamespaceKeyFunc_sampleResource (sr : SampleResource) :
    MetaNamespaceKeyFunc (.sampleResource sr)
      = .ok (if sr.Namespace = "" then sr.Name else sr.Namespace ++ "/" ++ sr.Name) := by
  unfold MetaNamespaceKeyFunc
  by_cases h : sr.Namespace = ""
  · simp [h]
  · have hlen : sr.Namespace.length > 0 := by
      rcases hns : sr.Namespace with ⟨l⟩
      rw [hns] at h
      cases l with
      | nil => exact absurd rfl h
      | cons a l => simp [String.length]
    simp [h, hlen]

/-- C5, counterexample: for the object `ns1/foo` the add callback and the update callback
call `AddRateLimited`, and make no `Add` call. -/
theorem callbacks_do_not_call_Add :
    MetaNamespaceKeyFunc (.sampleResource foo) = .ok "ns1/foo"
      ∧ (AddFunc demo (.sampleResource foo) calm).trace = [.AddRateLimited (.string "ns1/foo")]
      ∧ (UpdateFunc demo (.sampleResource blank) (.sampleResource foo) calm).trace
        = [.AddRateLimited (.string "ns1/foo")]
      ∧ Call.Add (.string "ns1/foo") ∉ (AddFunc demo (.sampleResource foo) calm).trace
      ∧ Call.Add (.string "ns1/foo")
        ∉ (UpdateFunc demo (.sampleResource blank) (.sampleResource foo) calm).trace := by
  have hadd : (AddFunc demo (.sampleResource foo) calm).trace
      = [.AddRateLimited (.string "ns1/foo")] := by rfl
  have hupd : (UpdateFunc demo (.sampleResource blank) (.sampleResource foo) calm).trace
      = [.AddRateLimited (.string "ns1/foo")] := by rfl
  refine ⟨by rfl, hadd, hupd, ?_, ?_⟩
  · rw [hadd]
    simp
  · rw [hupd]
    simp

/-- C5, amended: for every object whose key derivation succeeds, both the add callback and
the update callback (applied to the new object, whatever the old one) make exactly one call
to the work queue, `AddRateLimited(key)`, where the key of a resource is `namespace/name`
(or `name` when the namespace is empty); when key derivation fails no call to the work queue
is made and the error goes to the error handler. -/
theorem callbacks_enqueue {σ : Type} (c : Controller σ) (old obj : Obj) (s : σ) :
    (∀ key, MetaNamespaceKeyFunc obj = .ok key →
        (AddFunc c obj s).trace = [.AddRateLimited (.string key)]
          ∧ (UpdateFunc c old obj s).trace = [.AddRateLimited (.string key)]
          ∧ (AddFunc c obj s).out = .ret () ∧ (UpdateFunc c old obj s).out = .ret ())
      ∧ (∀ sr, obj = .sampleResource sr →
          MetaNamespaceKeyFunc obj
            = .ok (if sr.Namespace = "" then sr.Name else sr.Namespace ++ "/" ++ sr.Name))
      ∧ (∀ err, MetaNamespaceKeyFunc obj = .error err →
          (AddFunc c obj s).trace = [.HandleError err]
            ∧ (UpdateFunc c old obj s).trace = [.HandleError err]
            ∧ queueOps (AddFunc c obj s).trace = []
            ∧ queueOps (UpdateFunc c old obj s).trace = []) := by
  refine ⟨?_, ?_, ?_⟩
  · intro key h
    simp [AddFunc, UpdateFunc, enqueueSampleResource, h, notify, invoke]
  · intro sr h
    rw [h]
    exact MetaNamespaceKeyFunc_sampleResource sr
  · intro err h
    simp [AddFunc, UpdateFunc, enqueueSampleResource, h, notify, invoke, queueOps,
      Call.isQueueOp]

/-- Witness of C5: the object `ns1/foo` is enqueued under `ns1/foo`; an object without
metadata is not enqueued. -/
theorem callbacks_enqueue_witness :
    ((AddFunc demo (.sampleResource foo) calm).trace = [.AddRateLimited (.string "ns1/foo")]
        ∧ (UpdateFunc demo (.sampleResource blank) (.sampleResource foo) calm).trace
          = [.AddRateLimited (.string "ns1/foo")]
        ∧ (AddFunc demo (.sampleResource foo) calm).out = .ret ()
        ∧ (UpdateFunc demo (.sampleResource blank) (.sampleResource foo) calm).out = .ret ())
      ∧ queueOps (AddFunc demo (.noMeta "42") calm).trace = [] :=
  ⟨(callbacks_enqueue demo (.sampleResource blank) (.sampleResource foo) calm).1 "ns1/foo"
      (by rfl),
   ((callbacks_enqueue demo (.sampleResource blank) (.noMeta "42") calm).2.2
      (Errorf "object has no meta") (by rfl)).2.2.1⟩


/-! ## The worker -/

/-- C6: when `Get` reports shutdown, `processNextWorkItem` returns false after that one
call; for a string key dequeued without shutdown, if `syncHandler` returns nil the queue
receives `Forget(key)` then `Done(key)` and no `AddRateLimited`, and if `syncHandler` returns
an error the queue receives `AddRateLimited(key)` once, then `Done(key)`, and no `Forget`; in
both cases `syncHandler` runs once, `Done` is called once and the function returns true. -/
theorem processNextWorkItem_requeue {σ : Type} (c : Controller σ) (s : σ) (key : String) :
    (∀ obj, c.workqueueGet s = (obj, true) →
        (processNextWorkItem c s).trace = [.Get] ∧ (processNextWorkItem c s).out = .ret false)
      ∧ (c.workqueueGet s = (.string key, false) →
          (syncHandler c key (c.react .Get s)).out = .ret none →
          (processNextWorkItem c s).trace =
              [.Get] ++ (syncHandler c key (c.react .Get s)).trace ++
                [.Forget (.string key), .Info ["Successfully synced '%s'", key],
                 .Done (.string key)]
            ∧ queueOps (processNextWorkItem c s).trace =
              [.Get, .Forget (.string key), .Done (.string key)]
            ∧ (processNextWorkItem c s).out = .ret true)
      ∧ (∀ e, c.workqueueGet s = (.string key, false) →
          (syncHandler c key (c.react .Get s)).out = .ret (some e) →
          (processNextWorkItem c s).trace =
              [.Get] ++ (syncHandler c key (c.react .Get s)).trace ++
                [.AddRateLimited (.string key), .Done (.string key),
                 .HandleError
                  (Errorf ("error syncing '" ++ key ++ "': " ++ e.Message ++ ", requeuing"))]
            ∧ queueOps (processNextWorkItem c s).trace =
              [.Get, .AddRateLimited (.string key), .Done (.string key)]
            ∧ (processNextWorkItem c s).out = .ret true) := by
  refine ⟨?_, ?_, ?_⟩
  · intro obj hget
    simp [processNextWorkItem, bind, pure, M.bind, M.pure, invoke, hget]
  · intro hget hout
    have hq := syncHandler_queueOps c key (c.react .Get s)
    rcases hres : syncHandler c key (c.react .Get s) with ⟨t, s2, o⟩
    rw [hres] at hout hq
    simp only at hout hq
    subst hout
    simp [processNextWorkItem, bind, pure, M.bind, M.pure, M.defer, invoke, notify, hget, hres]
    simp [queueOps, Call.isQueueOp] at hq ⊢
    exact hq
  · intro e hget hout
    have hq := syncHandler_queueOps c key (c.react .Get s)
    rcases hres : syncHandler c key (c.react .Get s) with ⟨t, s2, o⟩
    rw [hres] at hout hq
    simp only at hout hq
    subst hout
    simp [processNextWorkItem, bind, pure, M.bind, M.pure, M.defer, invoke, notify, hget, hres]
    simp [queueOps, Call.isQueueOp] at hq ⊢
    exact hq

/-- Witness of C6: a closed queue, a sync of `ns1/foo` that succeeds, and one whose write
meets a conflict. -/
theorem processNextWorkItem_requeue_witness :
    ((processNextWorkItem demo closing).trace = [.Get]
        ∧ (processNextWorkItem demo closing).out = .ret false)
      ∧ (queueOps (processNextWorkItem demo busy).trace =
            [.Get, .Forget (.string "ns1/foo"), .Done (.string "ns1/foo")]
        ∧ (processNextWorkItem demo busy).out = .ret true)
      ∧ (queueOps (processNextWorkItem demo busyContended).trace =
            [.Get, .AddRateLimited (.string "ns1/foo"), .Done (.string "ns1/foo")]
        ∧ (processNextWorkItem demo busyContended).out = .ret true) :=
  ⟨(processNextWorkItem_requeue demo closing "ns1/foo").1 (.string "ns1/foo") (by rfl),
   ((processNextWorkItem_requeue demo busy "ns1/foo").2.1 (by rfl) (by rfl)).2,
   ((processNextWorkItem_requeue demo busyContended "ns1/foo").2.2
      ⟨"the object has been modified", "Conflict"⟩ (by rfl) (by rfl)).2⟩

/-- C7, counterexample: the lister panics while `ns1/foo` is synced; `processNextWorkItem`
ends in that panic instead of returning true, and it has called `Done` but not
`AddRateLimited`. -/
theorem processNextWorkItem_panic_escapes :
    demo.workqueueGet busyCrashing = (.string "ns1/foo", false)
      ∧ (syncHandler demo "ns1/foo" (demo.react .Get busyCrashing)).out
        = .panic "invalid memory address or nil pointer dereference"
      ∧ (processNextWorkItem demo busyCrashing).out
        = .panic "invalid memory address or nil pointer dereference"
      ∧ (processNextWorkItem demo busyCrashing).out ≠ .ret true
      ∧ (processNextWorkItem demo busyCrashing).trace
        = [.Get, .ListerGet "ns1" "foo", .Done (.string "ns1/foo")]
      ∧ Call.AddRateLimited (.string "ns1/foo") ∉ (processNextWorkItem demo busyCrashing).trace
      ∧ (runWorker demo 5 busyCrashing).out
        = .panic "invalid memory address or nil pointer dereference" := by
  have hout : (processNextWorkItem demo busyCrashing).out
      = .panic "invalid memory address or nil pointer dereference" := by rfl
  have htrace : (processNextWorkItem demo busyCrashing).trace
      = [.Get, .ListerGet "ns1" "foo", .Done (.string "ns1/foo")] := by rfl
  refine ⟨by rfl, by rfl, hout, ?_, htrace, ?_, by rfl⟩
  · rw [hout]
    simp
  · rw [htrace]
    simp

/-- C7, amended: for every dequeued key, if the sync invocation panics, the deferred
`Done(key)` runs and the panic leaves `processNextWorkItem`, which neither returns true nor
calls `AddRateLimited` or `Forget`; the panic leaves the worker loop `runWorker` as well,
with no further round. -/
theorem processNextWorkItem_panic {σ : Type} (c : Controller σ) (s : σ) (key v : String)
    (hget : c.workqueueGet s = (.string key, false))
    (hp : (syncHandler c key (c.react .Get s)).out = .panic v) :
    (processNextWorkItem c s).out = .panic v
      ∧ (processNextWorkItem c s).trace =
        [.Get] ++ (syncHandler c key (c.react .Get s)).trace ++ [.Done (.string key)]
      ∧ queueOps (processNextWorkItem c s).trace = [.Get, .Done (.string key)]
      ∧ ∀ fuel, (runWorker c (fuel + 1) s).out = .panic v
          ∧ (runWorker c (fuel + 1) s).trace = (processNextWorkItem c s).trace := by
  have hq := syncHandler_queueOps c key (c.react .Get s)
  rcases hres : syncHandler c key (c.react .Get s) with ⟨t, s2, o⟩
  rw [hres] at hp hq
  simp only at hp hq
  subst hp
  have hrun : processNextWorkItem c s
      = ⟨[.Get] ++ t ++ [.Done (.string key)], c.react (.Done (.string key)) s2, .panic v⟩ := by
    simp [processNextWorkItem, bind, pure, M.bind, M.pure, M.defer, invoke, notify, hget, hres]
  refine ⟨by rw [hrun], by rw [hrun], ?_, ?_⟩
  · rw [hrun]
    simp [queueOps, Call.isQueueOp] at hq ⊢
    exact hq
  · intro fuel
    simp [runWorker, bind, M.bind, hrun]

/-- Witness of C7: the lister panics while `ns1/foo` is synced. -/
theorem processNextWorkItem_panic_witness :
    (processNextWorkItem demo busyCrashing).out
        = .panic "invalid memory address or nil pointer dereference"
      ∧ queueOps (processNextWorkItem demo busyCrashing).trace
        = [.Get, .Done (.string "ns1/foo")] :=
  have h := processNextWorkItem_panic demo busyCrashing "ns1/foo"
    "invalid memory address or nil pointer dereference" (by rfl) (by rfl)
  ⟨h.1, h.2.2.1⟩


/-! ## The lifecycle -/

/-- The launching loop launches one worker for each value of the counter below
`threadiness`, as long as it has rounds left, and returns. -/
theorem startWorkers_run {σ : Type} (c : Controller σ) (threadiness : Int) (fuel : Nat) :
    ∀ (i : Int) (s : σ),
      (startWorkers c threadiness fuel i s).trace =
          List.replicate (min fuel (threadiness - i).toNat) .GoWaitUntilRunWorker
        ∧ (startWorkers c threadiness fuel i s).out = .ret () := by
  induction fuel with
  | zero =>
    intro i s
    simp [startWorkers, pure, M.pure]
  | succ n ih =>
    intro i s
    by_cases h : i < threadiness
    · obtain ⟨ht, ho⟩ := ih (i + 1) (c.react .GoWaitUntilRunWorker s)
      rcases hres : startWorkers c threadiness n (i + 1) (c.react .GoWaitUntilRunWorker s)
        with ⟨t, s2, o⟩
      rw [hres] at ht ho
      simp only at ht ho
      subst ho
      have hmin : min (n + 1) (threadiness - i).toNat
          = min n (threadiness - (i + 1)).toNat + 1 := by omega
      simp [startWorkers, h, bind, M.bind, notify, invoke, hres, ht, hmin,
        List.replicate_succ]
    · have hz : (threadiness - i).toNat = 0 := by omega
      simp [startWorkers, h, pure, M.pure, hz]

/-- C8: if the cache-sync wait fails, `Run` returns a non-nil error and launches no worker;
if it succeeds, `Run` launches `threadiness` workers (none when `threadiness` is not
positive), all after the barrier, waits for the stop signal and returns nil; in both cases
the work queue is shut down before `Run` returns. -/
theorem Run_barrier {σ : Type} (c : Controller σ) (threadiness : Int) (s : σ) :
    (c.waitForCacheSync
          (c.react (.Info ["Waiting for informer caches to sync"])
            (c.react (.Info ["Starting SampleResource Controller"]) s)) = false →
        (Run c threadiness s).out = .ret (some (Errorf "failed to wait for caches to sync"))
          ∧ (Run c threadiness s).trace =
            [.Info ["Starting SampleResource Controller"],
             .Info ["Waiting for informer caches to sync"],
             .WaitForCacheSync, .ShutDown, .HandleCrash]
          ∧ (Run c threadiness s).trace.count .GoWaitUntilRunWorker = 0)
      ∧ (c.waitForCacheSync
          (c.react (.Info ["Waiting for informer caches to sync"])
            (c.react (.Info ["Starting SampleResource Controller"]) s)) = true →
        (Run c threadiness s).out = .ret none
          ∧ (Run c threadiness s).trace =
            [.Info ["Starting SampleResource Controller"],
             .Info ["Waiting for informer caches to sync"],
             .WaitForCacheSync, .Info ["Starting workers"]]
            ++ List.replicate threadiness.toNat .GoWaitUntilRunWorker
            ++ [.Info ["Started workers"], .RecvStopCh, .Info ["Shutting down workers"],
                .ShutDown, .HandleCrash]
          ∧ (Run c threadiness s).trace.count .GoWaitUntilRunWorker = threadiness.toNat
          ∧ (0 ≤ threadiness →
              ((Run c threadiness s).trace.count .GoWaitUntilRunWorker : Int) = threadiness)) := by
  constructor
  · intro hsync
    have hrun : (Run c threadiness s).out = .ret (some (Errorf "failed to wait for caches to sync"))
        ∧ (Run c threadiness s).trace =
            [.Info ["Starting SampleResource Controller"],
             .Info ["Waiting for informer caches to sync"],
             .WaitForCacheSync, .ShutDown, .HandleCrash] := by
      simp [Run, bind, pure, M.bind, M.pure, M.defer, invoke, notify, hsync]
    refine ⟨hrun.1, hrun.2, ?_⟩
    rw [hrun.2]
    decide
  · intro hsync
    obtain ⟨ht, ho⟩ := startWorkers_run c threadiness threadiness.toNat 0
      (c.react (.Info ["Starting workers"]) (c.react .WaitForCacheSync
        (c.react (.Info ["Waiting for informer caches to sync"])
          (c.react (.Info ["Starting SampleResource Controller"]) s))))
    rcases hres : startWorkers c threadiness threadiness.toNat 0
      (c.react (.Info ["Starting workers"]) (c.react .WaitForCacheSync
        (c.react (.Info ["Waiting for informer caches to sync"])
          (c.react (.Info ["Starting SampleResource Controller"]) s)))) with ⟨t, s2, o⟩
    rw [hres] at ht ho
    simp only at ht ho
    subst ho
    have hmin : min threadiness.toNat (threadiness - 0).toNat = threadiness.toNat := by simp
    rw [hmin] at ht
    have hrun : (Run c threadiness s).out = .ret none
        ∧ (Run c threadiness s).trace =
            [.Info ["Starting SampleResource Controller"],
             .Info ["Waiting for informer caches to sync"],
             .WaitForCacheSync, .Info ["Starting workers"]]
            ++ List.replicate threadiness.toNat .GoWaitUntilRunWorker
            ++ [.Info ["Started workers"], .RecvStopCh, .Info ["Shutting down workers"],
                .ShutDown, .HandleCrash] := by
      simp [Run, bind, pure, M.bind, M.pure, M.defer, invoke, notify, hsync, hres, ht]
    have hcount : (Run c threadiness s).trace.count .GoWaitUntilRunWorker
        = threadiness.toNat := by
      rw [hrun.2]
      simp [List.count_append, List.count_replicate]
    refine ⟨hrun.1, hrun.2, hcount, ?_⟩
    intro hpos
    rw [hcount]
    exact Int.toNat_of_nonneg hpos

/-- Witness of C8: a cache that never syncs, and a synced cache with three workers. -/
theorem Run_barrier_witness :
    ((Run demo 3 cold).out = .ret (some (Errorf "failed to wait for caches to sync"))
        ∧ (Run demo 3 cold).trace =
          [.Info ["Starting SampleResource Controller"],
           .Info ["Waiting for informer caches to sync"],
           .WaitForCacheSync, .ShutDown, .HandleCrash]
        ∧ (Run demo 3 cold).trace.count .GoWaitUntilRunWorker = 0)
      ∧ ((Run demo 3 calm).out = .ret none
        ∧ (Run demo 3 calm).trace.count .GoWaitUntilRunWorker = 3) :=
  ⟨(Run_barrier demo 3 cold).1 (by rfl),
   ((Run_barrier demo 3 calm).2 (by rfl)).1, ((Run_barrier demo 3 calm).2 (by rfl)).2.2.1⟩


end CrdController
